import Mathlib

/-!
Shallow embedding of the query-processing pipeline of `src/app.py`
(`QueryProcessor`): data model, workflow compilation, action execution,
site extraction, report aggregation and orchestration, together with
theorems settling the behavioural claims about them.
-/

namespace App

/-- A tagged browser action, as emitted by `generate_mcp_workflow`
(`app.py` lines 159-166): the `command` field of each step dict. -/
inductive Action where
  | navigate (url : String)
  | scroll (pixels : Nat)
  | wait (seconds : Nat)
  | type (selector : String) (text : String)
  | keyPress (key : String)
deriving DecidableEq, Repr

/-- One entry of the compiled workflow list: `{"site": site, "steps": steps}`
(`app.py` line 167). -/
structure SiteWorkflow where
  site : String
  steps : List Action
deriving DecidableEq, Repr

/-- `search_params` dict of a parsed query; absent keys are modelled as the
empty string (Python `.get(key, '')`). -/
structure SearchParams where
  category : String
  budget : String
  specific_product : String
deriving DecidableEq, Repr

/-- A parsed query (`parsed_query` in `app.py`): `query_type`,
`target_websites`, `search_params`. -/
structure Intent where
  query_type : String
  target_websites : List String
  search_params : SearchParams
deriving DecidableEq, Repr

/-- `self.supported_sites` (`app.py` lines 45-48): site key to base URL. -/
def supported_sites : List (String × String) :=
  [("amazon", "https://www.amazon.com"),
   ("flipkart", "https://www.flipkart.com")]

/-- Python `site.lower()` (ASCII case folding on the character list). -/
def pyLower (s : String) : String := String.mk (s.data.map Char.toLower)

/-- Registry lookup: `self.supported_sites[key]` guarded by
`key in self.supported_sites`. -/
def lookupSite (key : String) : Option String :=
  (supported_sites.find? (fun p => p.1 == key)).map Prod.snd

/-- `search_params.get('specific_product', '') or search_params.get('category', '')`
(`app.py` line 154): Python `or` picks the first truthy (non-empty) value. -/
def searchTerm (p : SearchParams) : String :=
  if p.specific_product ≠ "" then p.specific_product else p.category

/-- The three unconditional steps built for a supported site
(`app.py` lines 159-163). -/
def baseSteps (base term : String) : List Action :=
  [Action.navigate (base ++ "/s?k=" ++ term),
   Action.scroll 2000,
   Action.wait 2]

/-- The two steps appended when a budget is present and the site is flipkart
(`app.py` lines 164-166). -/
def budgetSteps (term budget : String) : List Action :=
  [Action.type "input[name=\x27q\x27]" (term ++ " under " ++ budget),
   Action.keyPress "Enter"]

/-- One iteration of the `for site in target_websites` loop
(`app.py` lines 157-170): a supported site yields a workflow entry,
an unsupported one yields none (only a warning is logged). -/
def compile_site (term budget site : String) : Option SiteWorkflow :=
  match lookupSite (pyLower site) with
  | none => none
  | some base =>
      some { site := site
             steps :=
               if budget ≠ "" ∧ (pyLower site) = "flipkart" then
                 baseSteps base term ++ budgetSteps term budget
               else
                 baseSteps base term }

/-- `generate_mcp_workflow` (`app.py` lines 147-175): the loop appends one
entry per supported requested site, in request order. -/
def generate_mcp_workflow (intent : Intent) : List SiteWorkflow :=
  intent.target_websites.filterMap
    (compile_site (searchTerm intent.search_params) intent.search_params.budget)

/-- Membership in the compiled workflow characterised by the per-site
compilation step. -/
theorem mem_generate_mcp_workflow (intent : Intent) (w : SiteWorkflow) :
    w ∈ generate_mcp_workflow intent ↔
      ∃ site ∈ intent.target_websites,
        compile_site (searchTerm intent.search_params)
          intent.search_params.budget site = some w := by
  simp [generate_mcp_workflow, List.mem_filterMap]

/-- Shape of any compiled workflow entry: its site is a requested one that is
in the registry, and its steps are the base steps, with the budget suffix
exactly when the budget is non-empty and the site is flipkart. -/
theorem workflow_shape (intent : Intent) (w : SiteWorkflow)
    (hw : w ∈ generate_mcp_workflow intent) :
    ∃ base, w.site ∈ intent.target_websites ∧
      lookupSite (pyLower w.site) = some base ∧
      w.steps =
        (if intent.search_params.budget ≠ "" ∧ pyLower w.site = "flipkart" then
          baseSteps base (searchTerm intent.search_params) ++
            budgetSteps (searchTerm intent.search_params)
              intent.search_params.budget
        else
          baseSteps base (searchTerm intent.search_params)) := by
  rw [mem_generate_mcp_workflow] at hw
  obtain ⟨site, hsite, hc⟩ := hw
  unfold compile_site at hc
  cases hbase : lookupSite (pyLower site) with
  | none => rw [hbase] at hc; exact absurd hc (by simp)
  | some base =>
      rw [hbase] at hc
      simp only [Option.some.injEq] at hc
      refine ⟨base, ?_, ?_, ?_⟩
      · rw [← hc]; exact hsite
      · rw [← hc]; exact hbase
      · rw [← hc]

/-- `String.append` concatenates the underlying character lists. -/
theorem string_data_append (s t : String) : (s ++ t).data = s.data ++ t.data := rfl

/-- The sites of the compiled workflow are exactly the requested sites that
are in the registry, in request order. -/
theorem map_site_eq_filter (term budget : String) (l : List String) :
    (l.filterMap (compile_site term budget)).map SiteWorkflow.site =
      l.filter (fun s => (lookupSite (pyLower s)).isSome) := by
  induction l with
  | nil => rfl
  | cons s l ih =>
      cases hl : lookupSite (pyLower s) with
      | none => simp [List.filterMap_cons, compile_site, hl, List.filter_cons, ih]
      | some base => simp [List.filterMap_cons, compile_site, hl, List.filter_cons, ih]

/-- Counting an element in a filtered list. -/
theorem count_filter_eq (p : String → Bool) (b : String) (l : List String) :
    (l.filter p).count b = if p b then l.count b else 0 := by
  induction l with
  | nil => simp
  | cons a l ih =>
      by_cases hpa : p a <;> by_cases hab : a = b <;>
        simp_all [List.filter_cons, List.count_cons]

/-- Claim C6: for every intent, `generate_mcp_workflow` is total and produces
one `SiteWorkflow` per supported requested site, in request order, and none
for site keys absent from the registry: the compiled sites are exactly the
requested keys that are in the registry, and every produced entry's site is
in the registry. -/
theorem workflow_per_supported_site (intent : Intent) :
    (generate_mcp_workflow intent).map SiteWorkflow.site =
      intent.target_websites.filter (fun s => (lookupSite (pyLower s)).isSome) ∧
    ∀ w ∈ generate_mcp_workflow intent, (lookupSite (pyLower w.site)).isSome := by
  constructor
  · exact map_site_eq_filter (searchTerm intent.search_params)
      intent.search_params.budget intent.target_websites
  · intro w hw
    obtain ⟨base, _, hbase, _⟩ := workflow_shape intent w hw
    simp [hbase]

/-- A request naming one unsupported site among two supported ones. -/
def intent6 : Intent :=
  { query_type := "product_search"
    target_websites := ["amazon", "myntra", "flipkart"]
    search_params := { category := "laptops", budget := "", specific_product := "" } }

/-- A workflow entry produced for `intent6`. -/
def w6 : SiteWorkflow :=
  { site := "amazon", steps := baseSteps "https://www.amazon.com" "laptops" }

/-- Witness for claim C6 at a concrete intent: the unsupported key "myntra"
yields no entry, the two supported keys yield one entry each in order. -/
theorem workflow_per_supported_site_witness :
    (generate_mcp_workflow intent6).map SiteWorkflow.site = ["amazon", "flipkart"] ∧
    (lookupSite (pyLower w6.site)).isSome :=
  ⟨((workflow_per_supported_site intent6).1).trans (by decide),
   (workflow_per_supported_site intent6).2 w6 (by decide)⟩

/-- An intent requesting the same supported site twice. -/
def dupIntent : Intent :=
  { query_type := "product_search"
    target_websites := ["amazon", "amazon"]
    search_params := { category := "laptops", budget := "", specific_product := "" } }

/-- Claim C4 counterexample: a duplicated supported site key produces one
workflow entry per occurrence, so the output has two entries with the same
site key — not at most one per distinct key as claimed. -/
theorem duplicate_sites_counterexample :
    (generate_mcp_workflow dupIntent).map SiteWorkflow.site = ["amazon", "amazon"] ∧
    (generate_mcp_workflow dupIntent).length = 2 := by
  decide

/-- Claim C4 amended: each occurrence of a supported site key yields its own
workflow entry (duplicates are not collapsed); unsupported keys yield none.
The number of entries carrying site key `s` equals the number of occurrences
of `s` in the request when `s` is supported, and zero otherwise. -/
theorem workflow_count_per_occurrence (intent : Intent) (s : String) :
    ((generate_mcp_workflow intent).map SiteWorkflow.site).count s =
      if (lookupSite (pyLower s)).isSome then intent.target_websites.count s else 0 := by
  unfold generate_mcp_workflow
  rw [map_site_eq_filter, count_filter_eq]

/-- Claim C10: every compiled workflow entry begins with a Navigate action
whose URL is the site's registry base URL followed by the uniform
Amazon-style search path `/s?k=` and the search term — for flipkart as much
as for amazon. -/
theorem navigate_url_uniform (intent : Intent) (w : SiteWorkflow)
    (hw : w ∈ generate_mcp_workflow intent) :
    ∃ base rest, lookupSite (pyLower w.site) = some base ∧
      w.steps =
        Action.navigate (base ++ "/s?k=" ++ searchTerm intent.search_params) :: rest := by
  obtain ⟨base, _, hbase, hsteps⟩ := workflow_shape intent w hw
  by_cases hc : intent.search_params.budget ≠ "" ∧ pyLower w.site = "flipkart"
  · rw [if_pos hc] at hsteps
    exact ⟨base,
      Action.scroll 2000 :: Action.wait 2 ::
        budgetSteps (searchTerm intent.search_params) intent.search_params.budget,
      hbase, by rw [hsteps]; rfl⟩
  · rw [if_neg hc] at hsteps
    exact ⟨base, [Action.scroll 2000, Action.wait 2], hbase, by rw [hsteps]; rfl⟩

/-- An intent requesting only flipkart, with no budget. -/
def fIntent : Intent :=
  { query_type := "product_search"
    target_websites := ["flipkart"]
    search_params := { category := "laptops", budget := "", specific_product := "" } }

/-- The workflow entry compiled for `fIntent`. -/
def fWorkflow : SiteWorkflow :=
  { site := "flipkart", steps := baseSteps "https://www.flipkart.com" "laptops" }

/-- Witness for claim C10: the flipkart entry is navigated to the
Amazon-style URL `https://www.flipkart.com/s?k=laptops`. -/
theorem navigate_url_uniform_witness :
    (∃ base rest, lookupSite (pyLower fWorkflow.site) = some base ∧
      fWorkflow.steps =
        Action.navigate (base ++ "/s?k=" ++ searchTerm fIntent.search_params) :: rest) ∧
    fWorkflow.steps.head? = some (Action.navigate "https://www.flipkart.com/s?k=laptops") :=
  ⟨navigate_url_uniform fIntent fWorkflow (by decide), by decide⟩

/-- Recognises a Type action. -/
def isTypeStep : Action → Bool
  | Action.type _ _ => true
  | _ => false

/-- Recognises a KeyPress action. -/
def isPressStep : Action → Bool
  | Action.keyPress _ => true
  | _ => false

/-- Claim C5: a compiled entry's steps end with one Type action whose text
contains both the search term and the budget, followed by one
KeyPress(Enter), exactly when the site is the flipkart registry entry and
the budget is non-empty; and the Type/KeyPress step counts are 1 in that
case and 0 otherwise. -/
theorem flipkart_budget_suffix (intent : Intent) (w : SiteWorkflow)
    (hw : w ∈ generate_mcp_workflow intent) :
    ((intent.search_params.budget ≠ "" ∧ pyLower w.site = "flipkart") ↔
      ∃ pre sel txt,
        w.steps = pre ++ [Action.type sel txt, Action.keyPress "Enter"] ∧
        (∃ l r, txt.data = l ++ (searchTerm intent.search_params).data ++ r) ∧
        (∃ l r, txt.data = l ++ intent.search_params.budget.data ++ r)) ∧
    w.steps.countP isTypeStep =
      (if intent.search_params.budget ≠ "" ∧ pyLower w.site = "flipkart" then 1 else 0) ∧
    w.steps.countP isPressStep =
      (if intent.search_params.budget ≠ "" ∧ pyLower w.site = "flipkart" then 1 else 0) := by
  obtain ⟨base, _, hbase, hsteps⟩ := workflow_shape intent w hw
  by_cases hc : intent.search_params.budget ≠ "" ∧ pyLower w.site = "flipkart"
  · rw [if_pos hc] at hsteps
    rw [hsteps, if_pos hc]
    refine ⟨⟨fun _ => ?_, fun _ => hc⟩, ?_, ?_⟩
    · refine ⟨baseSteps base (searchTerm intent.search_params), "input[name=\x27q\x27]",
        searchTerm intent.search_params ++ " under " ++ intent.search_params.budget,
        rfl, ?_, ?_⟩
      · exact ⟨[], " under ".data ++ intent.search_params.budget.data, by
          simp [string_data_append, List.append_assoc]⟩
      · exact ⟨(searchTerm intent.search_params ++ " under ").data, [], by
          simp [string_data_append, List.append_assoc]⟩
    · simp [baseSteps, budgetSteps, List.countP_append, List.countP_cons, isTypeStep]
    · simp [baseSteps, budgetSteps, List.countP_append, List.countP_cons, isPressStep]
  · rw [if_neg hc] at hsteps
    rw [hsteps, if_neg hc]
    refine ⟨⟨fun h => absurd h hc, fun hdecomp => ?_⟩, ?_, ?_⟩
    · obtain ⟨pre, sel, txt, hdec, -, -⟩ := hdecomp
      have hmem : Action.keyPress "Enter" ∈ baseSteps base (searchTerm intent.search_params) := by
        rw [hdec]; simp
      simp [baseSteps] at hmem
    · simp [baseSteps, List.countP_cons, isTypeStep]
    · simp [baseSteps, List.countP_cons, isPressStep]

/-- An intent requesting flipkart with a non-empty budget. -/
def intent5 : Intent :=
  { query_type := "product_search"
    target_websites := ["flipkart"]
    search_params := { category := "laptops", budget := "1000", specific_product := "" } }

/-- The workflow entry compiled for `intent5`. -/
def w5 : SiteWorkflow :=
  { site := "flipkart"
    steps := baseSteps "https://www.flipkart.com" "laptops" ++ budgetSteps "laptops" "1000" }

/-- Witness for claim C5 at a concrete flipkart-with-budget intent. -/
theorem flipkart_budget_suffix_witness :
    ((intent5.search_params.budget ≠ "" ∧ pyLower w5.site = "flipkart") ↔
      ∃ pre sel txt,
        w5.steps = pre ++ [Action.type sel txt, Action.keyPress "Enter"] ∧
        (∃ l r, txt.data = l ++ (searchTerm intent5.search_params).data ++ r) ∧
        (∃ l r, txt.data = l ++ intent5.search_params.budget.data ++ r)) ∧
    w5.steps.countP isTypeStep =
      (if intent5.search_params.budget ≠ "" ∧ pyLower w5.site = "flipkart" then 1 else 0) ∧
    w5.steps.countP isPressStep =
      (if intent5.search_params.budget ≠ "" ∧ pyLower w5.site = "flipkart" then 1 else 0) :=
  flipkart_budget_suffix intent5 w5 (by decide)

/-- A listing container element: `inner sel` is the `inner_text` of the first
element matching `sel` inside the container, or `none` when
`item.query_selector(sel)` finds nothing. -/
structure Item where
  inner : String → Option String

/-- The page capability used by `scrape_site`: executing one browser action
(any of the five commands, `app.py` lines 185-199), `query_selector_all`,
and `wait_for_selector`; the latter two may raise. -/
structure Page where
  runStep : Action → Except String Unit
  queryAll : String → Except String (List Item)
  waitForSelector : String → Except String Unit

/-- The `for step in steps` loop (`app.py` lines 182-201): each step's
execution is wrapped in try/except — its outcome is recorded (a failure is
only logged) and the loop continues with the remaining steps. -/
def execute_steps (run : Action → Except String Unit) :
    List Action → List (Action × Except String Unit)
  | [] => []
  | a :: rest => (a, run a) :: execute_steps run rest

/-- One scraped product entry (`app.py` lines 213-218, 233-238). -/
structure ListingRecord where
  site : String
  title : String
  price : String
  timestamp : String
deriving DecidableEq, Repr

/-- Builds one record from a listing container: missing title/price elements
yield the literal "N/A"; text is stripped; the timestamp is the extraction
wall clock (`app.py` lines 209-218). -/
def mkItemRecord (siteName titleSel priceSel now : String) (it : Item) : ListingRecord :=
  { site := siteName
    title := ((it.inner titleSel).getD "N/A").trim
    price := ((it.inner priceSel).getD "N/A").trim
    timestamp := now }

/-- The site-specific scraping half of `scrape_site`
(`app.py` lines 203-244): amazon reads `.s-result-item` containers,
flipkart first waits (bounded) for `div._1AtVbE` then reads those
containers; each branch is wrapped in try/except so an error yields the
records collected so far (none, since the query/wait precedes every
append); both take only the first 5 containers. -/
def extract_listings (page : Page) (now site : String) : List ListingRecord :=
  if pyLower site = "amazon" then
    match page.queryAll ".s-result-item" with
    | Except.error _ => []
    | Except.ok items =>
        (items.take 5).map (mkItemRecord "Amazon" "h2" ".a-price .a-offscreen" now)
  else if pyLower site = "flipkart" then
    match page.waitForSelector "div._1AtVbE" with
    | Except.error _ => []
    | Except.ok _ =>
        match page.queryAll "div._1AtVbE" with
        | Except.error _ => []
        | Except.ok items =>
            (items.take 5).map (mkItemRecord "Flipkart" "a.s1Q9rs" "div._30jeq3" now)
  else []

/-- `scrape_site` (`app.py` lines 177-244): runs every step, then extracts
site-specific listings; returns the step trace and the records. -/
def scrape_site (page : Page) (now site : String) (steps : List Action) :
    List (Action × Except String Unit) × List ListingRecord :=
  (execute_steps page.runStep steps, extract_listings page now site)

/-- Every step is attempted, in order, whatever the outcomes. -/
theorem execute_steps_map_fst (run : Action → Except String Unit)
    (steps : List Action) :
    (execute_steps run steps).map Prod.fst = steps := by
  induction steps with
  | nil => rfl
  | cons a rest ih => simp [execute_steps, ih]

/-- Each step appears in the trace with its own outcome. -/
theorem execute_steps_mem (run : Action → Except String Unit)
    (steps : List Action) (a : Action) (ha : a ∈ steps) :
    (a, run a) ∈ execute_steps run steps := by
  induction steps with
  | nil => cases ha
  | cons b rest ih =>
      cases ha with
      | head => exact List.mem_cons_self ..
      | tail _ h => exact List.mem_cons_of_mem _ (ih h)

/-- Claim C7: the step interpreter never stops after a failing action — the
attempted actions of the trace are exactly the given steps in order, the
trace has one entry per step, and every step (in particular every step after
a failing one) appears in the trace with its own outcome. -/
theorem scrape_site_attempts_all (page : Page) (now site : String)
    (steps : List Action) :
    ((scrape_site page now site steps).1).map Prod.fst = steps ∧
    ((scrape_site page now site steps).1).length = steps.length ∧
    ∀ a ∈ steps, (a, page.runStep a) ∈ (scrape_site page now site steps).1 := by
  refine ⟨execute_steps_map_fst page.runStep steps, ?_, ?_⟩
  · have h := congrArg List.length (execute_steps_map_fst page.runStep steps)
    simpa using h
  · exact fun a ha => execute_steps_mem page.runStep steps a ha

/-- A step runner where only Type actions fail (an invalid selector). -/
def runX : Action → Except String Unit
  | Action.type _ _ => Except.error "invalid selector"
  | _ => Except.ok ()

/-- A step list with one invalid-selector Type step in the middle. -/
def stepsX : List Action :=
  [Action.navigate "https://www.amazon.com/s?k=laptops",
   Action.type "#does-not-exist" "laptops",
   Action.scroll 2000]

/-- A page whose middle Type step fails but whose queries succeed. -/
def pageX : Page :=
  { runStep := runX
    queryAll := fun _ => Except.ok []
    waitForSelector := fun _ => Except.ok () }

/-- Witness for claim C7: with an invalid selector in the middle of the step
list, all steps are still attempted — in particular the scroll step after
the failing one. -/
theorem scrape_site_attempts_all_witness :
    ((scrape_site pageX "t" "amazon" stepsX).1).map Prod.fst = stepsX ∧
    (Action.scroll 2000, pageX.runStep (Action.scroll 2000)) ∈
      (scrape_site pageX "t" "amazon" stepsX).1 :=
  ⟨(scrape_site_attempts_all pageX "t" "amazon" stepsX).1,
   (scrape_site_attempts_all pageX "t" "amazon" stepsX).2.2
     (Action.scroll 2000) (by decide)⟩

/-- Claim C8: site extraction returns at most 5 records; it returns the empty
sequence (rather than raising) when the container query errors, when the
bounded flipkart wait errors, when no containers match, and for an
unsupported site. -/
theorem extract_listings_spec (page : Page) (now site : String) :
    (extract_listings page now site).length ≤ 5 ∧
    (pyLower site = "amazon" →
      (∀ e, page.queryAll ".s-result-item" = Except.error e →
        extract_listings page now site = []) ∧
      (page.queryAll ".s-result-item" = Except.ok [] →
        extract_listings page now site = [])) ∧
    (pyLower site = "flipkart" →
      (∀ e, page.waitForSelector "div._1AtVbE" = Except.error e →
        extract_listings page now site = []) ∧
      (∀ e, page.queryAll "div._1AtVbE" = Except.error e →
        extract_listings page now site = []) ∧
      (page.queryAll "div._1AtVbE" = Except.ok [] →
        extract_listings page now site = [])) ∧
    (pyLower site ≠ "amazon" → pyLower site ≠ "flipkart" →
      extract_listings page now site = []) := by
  by_cases ha : pyLower site = "amazon"
  · refine ⟨?_, ?_, ?_, ?_⟩
    · unfold extract_listings
      rw [if_pos ha]
      cases hq : page.queryAll ".s-result-item" with
      | error e => simp
      | ok items => simp [List.length_take]
    · intro _
      constructor
      · intro e he
        unfold extract_listings
        rw [if_pos ha, he]
      · intro he
        unfold extract_listings
        rw [if_pos ha, he]
        rfl
    · intro hf
      rw [ha] at hf
      exact absurd hf (by decide)
    · intro ha2 _
      exact absurd ha ha2
  · by_cases hf : pyLower site = "flipkart"
    · refine ⟨?_, ?_, ?_, ?_⟩
      · unfold extract_listings
        rw [if_neg ha, if_pos hf]
        cases hw : page.waitForSelector "div._1AtVbE" with
        | error e => simp
        | ok u =>
            cases hq : page.queryAll "div._1AtVbE" with
            | error e => simp
            | ok items => simp [List.length_take]
      · intro ha2
        exact absurd ha2 ha
      · intro _
        refine ⟨?_, ?_, ?_⟩
        · intro e he
          unfold extract_listings
          rw [if_neg ha, if_pos hf, he]
        · intro e he
          unfold extract_listings
          rw [if_neg ha, if_pos hf]
          cases hw : page.waitForSelector "div._1AtVbE" with
          | error e2 => rfl
          | ok u => rw [he]
        · intro he
          unfold extract_listings
          rw [if_neg ha, if_pos hf]
          cases hw : page.waitForSelector "div._1AtVbE" with
          | error e2 => rfl
          | ok u => rw [he]; rfl
      · intro _ hf2
        exact absurd hf hf2
    · refine ⟨?_, ?_, ?_, ?_⟩
      · unfold extract_listings
        rw [if_neg ha, if_neg hf]
        simp
      · intro ha2
        exact absurd ha2 ha
      · intro hf2
        exact absurd hf2 hf
      · intro _ _
        unfold extract_listings
        rw [if_neg ha, if_neg hf]

/-- A page on which the container query and the bounded wait both raise. -/
def badPage : Page :=
  { runStep := fun _ => Except.ok ()
    queryAll := fun _ => Except.error "page crashed"
    waitForSelector := fun _ => Except.error "timeout 10000ms exceeded" }

/-- Witness for claim C8: on a page whose query and wait raise, both site
extractors return the empty sequence, and the bound holds. -/
theorem extract_listings_spec_witness :
    (extract_listings badPage "t" "amazon").length ≤ 5 ∧
    extract_listings badPage "t" "amazon" = [] ∧
    extract_listings badPage "t" "flipkart" = [] :=
  ⟨(extract_listings_spec badPage "t" "amazon").1,
   ((extract_listings_spec badPage "t" "amazon").2.1 rfl).1 "page crashed" rfl,
   ((extract_listings_spec badPage "t" "flipkart").2.2.1 rfl).1
     "timeout 10000ms exceeded" rfl⟩

/-- `re.sub(r'[^\d.]', '', price)` (`app.py` lines 278, 288): strip every
character that is not a digit and not a dot. -/
def stripPrice (s : String) : String :=
  String.mk (s.data.filter (fun c => c.isDigit || c == '.'))

/-- Value of a digit sequence read left to right. -/
def digitsVal (cs : List Char) : Nat :=
  cs.foldl (fun acc c => acc * 10 + (c.toNat - 48)) 0

/-- Python `float(s)` restricted to its use sites, where `s` contains only
digits and dots (the output of `stripPrice`): parsing succeeds exactly when
there is at least one digit and at most one dot, and yields the exact
rational value; otherwise (e.g. the empty string) `float` raises, modelled
as `none`. Exact rationals stand in for floats: every value reached in this
development (integers below 2^53 and their small sums/quotients) is
represented exactly by both. -/
def parsePrice (s : String) : Option ℚ :=
  let cs := s.data
  if cs.all (fun c => c.isDigit || c == '.') &&
      cs.any (fun c => c.isDigit) && decide (cs.count '.' ≤ 1) then
    let intPart := cs.takeWhile (fun c => c != '.')
    let fracPart := (cs.dropWhile (fun c => c != '.')).drop 1
    some ((digitsVal intPart : ℚ) + (digitsVal fracPart : ℚ) / (10 : ℚ) ^ fracPart.length)
  else
    none

/-- First pass of `create_excel_report` (`app.py` lines 276-281): numeric
price of one record — strip, parse as float, 0 on parse failure. -/
def numericPrice (raw : String) : ℚ :=
  (parsePrice (stripPrice raw)).getD 0

/-- The `prices` list (`app.py` lines 275-281), in record order. -/
def numericPrices (data : List ListingRecord) : List ℚ :=
  data.map (fun r => numericPrice r.price)

/-- `avg_price = sum(prices) / len(prices) if prices else 0`
(`app.py` line 283). -/
def avg_price (data : List ListingRecord) : ℚ :=
  if (numericPrices data).isEmpty then 0
  else (numericPrices data).sum / ((numericPrices data).length : ℚ)

/-- Second pass of `create_excel_report` (`app.py` lines 285-292): the
highlight decision for one price cell. The cell value (or "0" when falsy)
is re-stripped and re-parsed; on success the fill is applied iff the value
is strictly below the average; on a parse failure the `except` branch only
logs a warning, so no fill is applied. -/
def highlightPass (raw : String) (avg : ℚ) : Bool :=
  match parsePrice (stripPrice (if raw = "" then "0" else raw)) with
  | some v => decide (v < avg)
  | none => false

/-- Highlight flags for all data rows, in order; the whole block runs only
when the record set is non-empty (`if not df.empty`, `app.py` line 274). -/
def highlightFlags (data : List ListingRecord) : List Bool :=
  if data.isEmpty then []
  else data.map (fun r => highlightPass r.price (avg_price data))

/-- The record sequence of claim C1: raw prices "$100", "$50", "garbage". -/
def sampleRecords : List ListingRecord :=
  [{ site := "Amazon", title := "Laptop A", price := "$100",
     timestamp := "2025-01-01 10:00:00" },
   { site := "Amazon", title := "Laptop B", price := "$50",
     timestamp := "2025-01-01 10:00:01" },
   { site := "Flipkart", title := "Laptop C", price := "garbage",
     timestamp := "2025-01-01 10:00:02" }]

/-- Stripping and parsing "$100" yields the rational 100. -/
theorem numericPrice_100 : numericPrice "$100" = 100 := by
  have h : parsePrice (stripPrice "$100") =
      some (((100 : Nat) : ℚ) + ((0 : Nat) : ℚ) / (10 : ℚ) ^ (0 : Nat)) := rfl
  unfold numericPrice
  rw [h]
  norm_num

/-- Stripping and parsing "$50" yields the rational 50. -/
theorem numericPrice_50 : numericPrice "$50" = 50 := by
  have h : parsePrice (stripPrice "$50") =
      some (((50 : Nat) : ℚ) + ((0 : Nat) : ℚ) / (10 : ℚ) ^ (0 : Nat)) := rfl
  unfold numericPrice
  rw [h]
  norm_num

/-- Stripping "garbage" leaves nothing; the float parse fails, so the first
pass records 0. -/
theorem numericPrice_garbage : numericPrice "garbage" = 0 := by
  have h : parsePrice (stripPrice "garbage") = none := rfl
  unfold numericPrice
  rw [h]
  rfl

/-- The first-pass numeric prices of the sample records. -/
theorem numericPrices_sample : numericPrices sampleRecords = [100, 50, 0] := by
  show [numericPrice "$100", numericPrice "$50", numericPrice "garbage"] = [100, 50, 0]
  rw [numericPrice_100, numericPrice_50, numericPrice_garbage]

/-- The mean of the sample prices is 50. -/
theorem avg_price_sample : avg_price sampleRecords = 50 := by
  unfold avg_price
  rw [numericPrices_sample]
  norm_num

/-- The "$100" cell is not highlighted at mean 50. -/
theorem highlightPass_100 : highlightPass "$100" 50 = false := by
  show decide ((((100 : Nat) : ℚ) + ((0 : Nat) : ℚ) / (10 : ℚ) ^ (0 : Nat)) < 50) = false
  rw [decide_eq_false_iff_not]
  norm_num

/-- The "$50" cell is not highlighted at mean 50 (strict comparison). -/
theorem highlightPass_50 : highlightPass "$50" 50 = false := by
  show decide ((((50 : Nat) : ℚ) + ((0 : Nat) : ℚ) / (10 : ℚ) ^ (0 : Nat)) < 50) = false
  rw [decide_eq_false_iff_not]
  norm_num

/-- The "garbage" cell is not highlighted: its re-parse fails and the
`except` branch skips the fill. -/
theorem highlightPass_garbage (avg : ℚ) : highlightPass "garbage" avg = false := rfl

/-- The highlight flags of the sample records, row by row. -/
theorem highlightFlags_sample : highlightFlags sampleRecords = [false, false, false] := by
  have h : highlightFlags sampleRecords =
      [highlightPass "$100" (avg_price sampleRecords),
       highlightPass "$50" (avg_price sampleRecords),
       highlightPass "garbage" (avg_price sampleRecords)] := rfl
  rw [h, avg_price_sample, highlightPass_100, highlightPass_50, highlightPass_garbage]

/-- Claim C1 counterexample: the numeric prices are [100, 50, 0] and the
mean is 50 as claimed, but the highlight fill is NOT applied to the
"garbage" row (flag at index 2 is false): the formatting loop re-parses the
raw cell text, the re-parse of "garbage" fails, and the `except` branch
skips the fill instead of treating the value as 0. -/
theorem report_highlight_counterexample :
    numericPrices sampleRecords = [100, 50, 0] ∧
    avg_price sampleRecords = 50 ∧
    (highlightFlags sampleRecords).getD 2 true = false := by
  refine ⟨numericPrices_sample, avg_price_sample, ?_⟩
  rw [highlightFlags_sample]
  rfl

/-- Claim C1 amended: numeric prices [100, 50, 0] and mean 50 as claimed,
but the fill is applied only to rows whose raw price re-parses successfully
in the formatting pass and is strictly below the mean; the "garbage" row
fails to re-parse, so no row at all is highlighted. -/
theorem report_highlight_amended :
    numericPrices sampleRecords = [100, 50, 0] ∧
    avg_price sampleRecords = 50 ∧
    parsePrice (stripPrice "garbage") = none ∧
    highlightFlags sampleRecords = [false, false, false] :=
  ⟨numericPrices_sample, avg_price_sample, rfl, highlightFlags_sample⟩

/-- Outcome of the `parse_query` retry loop: the final result, how many
backend calls were made, and the sleeps performed between attempts, in
order. -/
structure RetryResult (ε α : Type) where
  result : Except ε α
  calls : Nat
  sleeps : List Nat
deriving Repr

/-- The `for attempt in range(retries)` loop of `parse_query`
(`app.py` lines 87-143): `backend attempt` is the attempt's outcome (the
LLM call plus JSON validation); on failure, when `attempt < retries - 1`
(modelled by `rest`, the number of attempts still allowed, being positive)
the loop sleeps `2 ** attempt` and continues, else it re-raises the last
error. -/
def parse_query_go {ε α : Type} (backend : Nat → Except ε α) :
    Nat → Nat → RetryResult ε α
  | attempt, rest =>
    match backend attempt with
    | Except.ok v => ⟨Except.ok v, 1, []⟩
    | Except.error e =>
        match rest with
        | 0 => ⟨Except.error e, 1, []⟩
        | rest' + 1 =>
            let r := parse_query_go backend (attempt + 1) rest'
            ⟨r.result, r.calls + 1, 2 ^ attempt :: r.sleeps⟩

/-- `parse_query` with `retries = 3` (`app.py` line 87): attempt 0 with two
further attempts allowed. -/
def parse_query (backend : Nat → Except String Intent) : RetryResult String Intent :=
  parse_query_go backend 0 2

/-- Claim C3: when every backend call fails, `parse_query` makes exactly 3
calls — none after the third failure — sleeps 2^0 = 1 then 2^1 = 2 time
units between consecutive attempts, and finishes by re-raising the last
error. -/
theorem parse_query_exhaustion (backend : Nat → Except String Intent)
    (e0 e1 e2 : String) (h0 : backend 0 = Except.error e0)
    (h1 : backend 1 = Except.error e1) (h2 : backend 2 = Except.error e2) :
    parse_query backend =
      { result := Except.error e2, calls := 3, sleeps := [2 ^ 0, 2 ^ 1] } ∧
    ([2 ^ 0, 2 ^ 1] : List Nat) = [1, 2] := by
  constructor
  · simp [parse_query, parse_query_go, h0, h1, h2]
  · rfl

/-- A backend that fails on every attempt, remembering which attempt. -/
def failingBackend : Nat → Except String Intent := fun k =>
  Except.error ("attempt " ++ toString k ++ " failed")

/-- Witness for claim C3 on a concretely failing backend. -/
theorem parse_query_exhaustion_witness :
    parse_query failingBackend =
      { result := Except.error "attempt 2 failed", calls := 3,
        sleeps := [2 ^ 0, 2 ^ 1] } ∧
    ([2 ^ 0, 2 ^ 1] : List Nat) = [1, 2] :=
  parse_query_exhaustion failingBackend
    "attempt 0 failed" "attempt 1 failed" "attempt 2 failed" rfl rfl rfl

/-- The environment one `process_query` call runs in: the outcome of intent
parsing (the only stage before the browser that can raise, after retry
exhaustion), the page capability, the extraction wall clock, and the report
writer (`create_excel_report`, which can raise on unrecoverable I/O). -/
structure PipelineEnv where
  parse : Except String Intent
  page : Page
  now : String
  report : List ListingRecord → Except String String

/-- `all_results` (`app.py` lines 347-361): per-site records, accumulated in
workflow order. -/
def collected_records (env : PipelineEnv) (intent : Intent) : List ListingRecord :=
  ((generate_mcp_workflow intent).map
    (fun w => (scrape_site env.page env.now w.site w.steps).2)).flatten

/-- `process_query` (`app.py` lines 336-388): parse, compile, scrape each
site workflow, then either build the report and return the success message,
or return the no-results message; any exception escaping a stage is caught
by the outer `except` and turned into the error message. -/
def process_query (env : PipelineEnv) : String :=
  match env.parse with
  | Except.error e => "Error processing query: " ++ e
  | Except.ok intent =>
      if (collected_records env intent).isEmpty then
        "No results found for the query."
      else
        match env.report (collected_records env intent) with
        | Except.ok filename => "Excel report generated: " ++ filename
        | Except.error e => "Error processing query: " ++ e

/-- Claim C2: `process_query` always returns exactly one of the three
outcome messages and never propagates an exception: the error message when
parsing raised, the no-results message exactly when zero records were
collected (including when every site yields nothing), and otherwise the
success message naming the report file — or the error message if the report
stage raised. -/
theorem process_query_outcomes (env : PipelineEnv) :
    ((∃ fn, process_query env = "Excel report generated: " ++ fn) ∨
      process_query env = "No results found for the query." ∨
      (∃ d, process_query env = "Error processing query: " ++ d)) ∧
    (∀ e, env.parse = Except.error e →
      process_query env = "Error processing query: " ++ e) ∧
    (∀ intent, env.parse = Except.ok intent →
      collected_records env intent = [] →
      process_query env = "No results found for the query.") ∧
    (∀ intent, env.parse = Except.ok intent →
      collected_records env intent ≠ [] →
      (∃ fn, env.report (collected_records env intent) = Except.ok fn ∧
        process_query env = "Excel report generated: " ++ fn) ∨
      (∃ d, env.report (collected_records env intent) = Except.error d ∧
        process_query env = "Error processing query: " ++ d)) := by
  have herr : ∀ e, env.parse = Except.error e →
      process_query env = "Error processing query: " ++ e := by
    intro e he
    unfold process_query
    rw [he]
  have hempty : ∀ intent, env.parse = Except.ok intent →
      collected_records env intent = [] →
      process_query env = "No results found for the query." := by
    intro intent hi hrec
    unfold process_query
    rw [hi]
    simp [hrec]
  have hfull : ∀ intent, env.parse = Except.ok intent →
      collected_records env intent ≠ [] →
      (∃ fn, env.report (collected_records env intent) = Except.ok fn ∧
        process_query env = "Excel report generated: " ++ fn) ∨
      (∃ d, env.report (collected_records env intent) = Except.error d ∧
        process_query env = "Error processing query: " ++ d) := by
    intro intent hi hne
    obtain ⟨a, l, hcc⟩ := List.exists_cons_of_ne_nil hne
    cases hr : env.report (collected_records env intent) with
    | ok fn =>
        left
        refine ⟨fn, rfl, ?_⟩
        rw [hcc] at hr
        unfold process_query
        rw [hi]
        simp [hcc, hr]
    | error d =>
        right
        refine ⟨d, rfl, ?_⟩
        rw [hcc] at hr
        unfold process_query
        rw [hi]
        simp [hcc, hr]
  refine ⟨?_, herr, hempty, hfull⟩
  cases hp : env.parse with
  | error e => exact Or.inr (Or.inr ⟨e, herr e hp⟩)
  | ok intent =>
      by_cases hrec : collected_records env intent = []
      · exact Or.inr (Or.inl (hempty intent hp hrec))
      · rcases hfull intent hp hrec with ⟨fn, -, hq⟩ | ⟨d, -, hq⟩
        · exact Or.inl ⟨fn, hq⟩
        · exact Or.inr (Or.inr ⟨d, hq⟩)

/-- A page on which every element query matches nothing. -/
def emptyPage : Page :=
  { runStep := fun _ => Except.ok ()
    queryAll := fun _ => Except.ok []
    waitForSelector := fun _ => Except.ok () }

/-- The end-to-end scenario intent: laptops under a budget on both sites. -/
def intentE : Intent :=
  { query_type := "product_search"
    target_websites := ["amazon", "flipkart"]
    search_params := { category := "laptops", budget := "₹50,000", specific_product := "" } }

/-- An environment where parsing succeeded and both sites yield nothing. -/
def envE : PipelineEnv :=
  { parse := Except.ok intentE
    page := emptyPage
    now := "2025-01-01 10:00:00"
    report := fun _ => Except.ok "query_report_ab12cd34.xlsx" }

/-- Witness for claim C2: with both sites returning zero extractable
records, `process_query` returns the no-results outcome. -/
theorem process_query_outcomes_witness :
    process_query envE = "No results found for the query." :=
  (process_query_outcomes envE).2.2.1 intentE rfl rfl

/-- Resource and side-effect events of one `process_query` run. -/
inductive Event where
  | browserLaunch
  | newPage
  | scrape (site : String)
  | pageClose
  | browserClose
  | report
deriving DecidableEq, Repr

/-- The ordered event trace of `process_query` (`app.py` lines 347-371):
when parsing raised, the browser block is never entered; otherwise the
browser is launched, a page opened, each site workflow scraped in order,
then the page and the browser are closed (lines 363-364) before the report
stage runs (line 369), which happens only when records were collected.
`scrape_site`, and hence the whole browser block, raises nothing: every
fallible operation inside it is wrapped (claims C7 and C8). -/
def process_trace (env : PipelineEnv) : List Event :=
  match env.parse with
  | Except.error _ => []
  | Except.ok intent =>
      [Event.browserLaunch, Event.newPage] ++
        (generate_mcp_workflow intent).map (fun w => Event.scrape w.site) ++
        [Event.pageClose, Event.browserClose] ++
        (if (collected_records env intent).isEmpty then [] else [Event.report])

/-- Claim C9: on every exit path of `process_query`, either the browser was
never launched (parsing raised before the browser block), or the trace
shows the page closed and then the browser closed after all scraping and
before the return — at most the report step follows the teardown. -/
theorem process_trace_teardown (env : PipelineEnv) :
    process_trace env = [] ∨
    ∃ (sites : List String) (tail : List Event),
      process_trace env =
        [Event.browserLaunch, Event.newPage] ++ sites.map Event.scrape ++
          [Event.pageClose, Event.browserClose] ++ tail ∧
      ∀ e ∈ tail, e = Event.report := by
  cases hp : env.parse with
  | error e =>
      left
      unfold process_trace
      rw [hp]
  | ok intent =>
      right
      refine ⟨(generate_mcp_workflow intent).map SiteWorkflow.site,
        if (collected_records env intent).isEmpty then [] else [Event.report],
        ?_, ?_⟩
      · unfold process_trace
        rw [hp]
        simp [List.map_map, Function.comp]
      · intro e he
        by_cases hcoll : (collected_records env intent).isEmpty = true
        · rw [if_pos hcoll] at he
          cases he
        · rw [if_neg hcoll] at he
          simpa using he

end App
